import Mathlib

/-!
Verification of the recommendation and AI-orchestration pipeline of the
JJB-StrongStart2025 browser extension.

The TypeScript sources are shallowly embedded: JavaScript numbers are
modelled as rationals (`ℚ`, exact arithmetic; the embedding does not model
IEEE-754 rounding or NaN — division by zero is the Lean convention `q / 0 = 0`),
timestamps as integers (`ℤ`, milliseconds), JavaScript `Map`s as functions
`String → Option β`, thrown exceptions as `Except`, and `async` external
effects (fetch results, storage reads) as explicit oracle parameters.
JavaScript string operations are modelled character-exactly on `List Char`.
-/

/-! ## JavaScript string primitives -/

/-- Case conversion of a single character, as `String.prototype.toLowerCase`
acts on the ASCII range (the only range the embedded code relies on). -/
def lowerChar (c : Char) : Char := c.toLower

/-- Lower-case every character, as `title.toLowerCase()`. -/
def lowerList (s : List Char) : List Char := s.map lowerChar

/-- Substring containment, as `String.prototype.includes`: does `needle`
occur contiguously inside `hay`? -/
def containsSub (hay needle : List Char) : Bool :=
  needle.isPrefixOf hay ||
    match hay with
    | [] => false
    | _ :: t => containsSub t needle

/-- Digit test for the regex character class `\d` (ASCII digits). -/
def isDigitChar (c : Char) : Bool := '0' ≤ c && c ≤ '9'

/-- Test for the regex `lead\d\x7b2\x7d` somewhere in the string: a literal
lead character followed by two ASCII digits. -/
def hasLeadTwoDigits (lead : Char) : List Char → Bool
  | a :: b :: c :: rest =>
    (a == lead && isDigitChar b && isDigitChar c) || hasLeadTwoDigits lead (b :: c :: rest)
  | _ => false

/-! ## Data model (`src/types/onboarding.ts`) -/

/-- Product record as exchanged through the pipeline.  `features` of the
TypeScript interface is optional; the code only ever iterates it, so an
absent list is modelled as `[]`. -/
structure Product where
  id : String
  title : String
  price : String
  priceNumeric : ℚ
  image : String
  category : String
  rating : Option ℚ := none
  features : List String := []
  url : Option String := none
  whyRecommended : Option String := none
deriving DecidableEq

/-- Price-sensitivity tier of `PriceSensitivity.level`. -/
inductive PriceLevel
  | budget
  | moderate
  | premium
  | luxury
deriving DecidableEq

/-- The `PriceSensitivity` interface. -/
structure PriceSensitivity where
  level : PriceLevel
  maxPrice : Option ℚ := none
  willingToPayMore : Bool
deriving DecidableEq

/-- The `RecommendationCriteria` interface. -/
structure RecommendationCriteria where
  userGoals : List String
  goalWeights : List (String × ℚ)
  priceSensitivity : PriceSensitivity
  likedProducts : List Product := []
  preferredCategories : List String := []
deriving DecidableEq

/-- The `UserPreferences` interface (the fields the pipeline reads). -/
structure UserPreferences where
  goals : List String
  goalWeights : List (String × ℚ)
  likedProducts : List Product
  dislikedProducts : List Product
  likedCategories : List String := []
  dislikedCategories : List String := []
  priceSensitivity : PriceSensitivity
deriving DecidableEq

/-- Derived swipe-pattern statistics (`analyzeSwipePatterns` result shape). -/
structure UserPatterns where
  avgLikedPrice : ℚ
  avgDislikedPrice : ℚ
  preferredCategories : List String
  avoidedCategories : List String
  qualityThreshold : ℚ
deriving DecidableEq

/-- The `ProductRecommendation` interface. -/
structure ProductRecommendation where
  product : Product
  score : ℚ
  reasons : List String
  savings : Option ℚ := none
  betterMatch : Option (List String) := none
deriving DecidableEq

/-! ## RecommendationEngine (`src/services/recommendationEngine.ts`) -/

/-- Lookup with JavaScript `|| 1` defaulting, as
`criteria.goalWeights[goal] || 1` (an absent or zero weight falls back
to `1`). -/
def goalWeightOr1 (ws : List (String × ℚ)) (g : String) : ℚ :=
  match ws.find? (fun p => p.1 == g) with
  | some p => if p.2 = 0 then 1 else p.2
  | none => 1

/-- Eco-marker test shared by the scorer and the engine:
`title.toLowerCase().includes` of an eco/organic/sustainable marker. -/
def hasEcoMarker (title : String) : Bool :=
  containsSub (lowerList title.toList) "eco".toList ||
  containsSub (lowerList title.toList) "organic".toList ||
  containsSub (lowerList title.toList) "sustainable".toList

/-- The `calculateSimilarity` method: category/price/rating weighted
similarity.  The rating term only contributes when both ratings are truthy,
exactly as `if (product1.rating && product2.rating)`. -/
def calculateSimilarity (product1 product2 : Product) : ℚ :=
  let catSim : ℚ := if product1.category = product2.category then 0.6 else 0
  let priceDiff := |product1.priceNumeric - product2.priceNumeric|
  let avgPrice := (product1.priceNumeric + product2.priceNumeric) / 2
  let priceSimiliarity := 1 - min (priceDiff / avgPrice) 1
  let ratingSim : ℚ :=
    match product1.rating, product2.rating with
    | some r1, some r2 =>
      if r1 ≠ 0 ∧ r2 ≠ 0 then (1 - |r1 - r2| / 5) * 0.1 else 0
    | _, _ => 0
  catSim + priceSimiliarity * 0.3 + ratingSim

/-- The `calculatePriceScore` method: cheaper products score by tier-scaled
savings fraction; dearer products score 0.6 only for quality-willing users
and rating ≥ 4.5, else 0.3. -/
def calculatePriceScore (product targetProduct : Product)
    (criteria : RecommendationCriteria) : ℚ :=
  if product.priceNumeric < targetProduct.priceNumeric then
    let savings := targetProduct.priceNumeric - product.priceNumeric
    let savingsPercent := savings / targetProduct.priceNumeric
    if criteria.priceSensitivity.level = .budget then
      min (savingsPercent * 2) 1
    else if criteria.priceSensitivity.level = .premium ∨
        criteria.priceSensitivity.level = .luxury then
      savingsPercent * 0.5
    else
      savingsPercent
  else
    match product.rating with
    | some r =>
      if criteria.priceSensitivity.willingToPayMore ∧ r ≠ 0 ∧ r ≥ 4.5 then 0.6 else 0.3
    | none => 0.3

/-- The `calculateGoalAlignment` method: per-goal contributions weighted by
goal weight, normalized by goal count (0.5 when no goals). -/
def calculateGoalAlignment (product : Product)
    (criteria : RecommendationCriteria) : ℚ :=
  let goals := criteria.userGoals
  let a1 : ℚ :=
    if "save-money" ∈ goals then
      (if product.priceNumeric < 50 then (0.8 : ℚ) else 0.4) * goalWeightOr1 criteria.goalWeights "save-money"
    else 0
  let a2 : ℚ :=
    if "quality-first" ∈ goals then
      (match product.rating with
       | some r => if r ≠ 0 then r / 5 else (0.5 : ℚ)
       | none => 0.5) * goalWeightOr1 criteria.goalWeights "quality-first"
    else 0
  let a3 : ℚ :=
    if "eco-friendly" ∈ goals then
      (if hasEcoMarker product.title then (0.9 : ℚ) else 0.3) * goalWeightOr1 criteria.goalWeights "eco-friendly"
    else 0
  let alignmentScore := a1 + a2 + a3
  if 0 < goals.length then alignmentScore / goals.length else 0.5

/-- The `calculateRecommendationScore` method: 0.4·price + 0.3·quality +
0.3·goal-alignment; the quality term only contributes for a truthy rating. -/
def calculateRecommendationScore (product targetProduct : Product)
    (criteria : RecommendationCriteria) : ℚ :=
  let priceScore := calculatePriceScore product targetProduct criteria
  let qualityPart : ℚ :=
    match product.rating with
    | some r => if r ≠ 0 then (r / 5) * 0.3 else 0
    | none => 0
  let goalScore := calculateGoalAlignment product criteria
  priceScore * 0.4 + qualityPart + goalScore * 0.3

/-- The `calculateSavings` method. -/
def calculateSavings (product targetProduct : Product) : ℚ :=
  targetProduct.priceNumeric - product.priceNumeric

/-- Integer rendering of a rational rounded to the nearest integer, used for
`toFixed(0)` in reason strings. -/
def ratToFixed0 (q : ℚ) : String :=
  let n := round q
  (if n < 0 then "-" else "") ++ toString n.natAbs

/-- Decimal rendering with two fractional digits, used for `toFixed(2)`. -/
def ratToFixed2 (q : ℚ) : String :=
  let n := round (q * 100)
  let a := n.natAbs
  (if n < 0 then "-" else "") ++ toString (a / 100) ++ "." ++
    (if a % 100 < 10 then "0" else "") ++ toString (a % 100)

/-- The `generateReasons` method (reason strings, truncated to four). -/
def generateReasons (product targetProduct : Product)
    (criteria : RecommendationCriteria) : List String :=
  let savings := calculateSavings product targetProduct
  let l1 : List String :=
    if 0 < savings then
      ["💰 Save " ++ ratToFixed0 (savings / targetProduct.priceNumeric * 100) ++
        "% ($" ++ ratToFixed2 savings ++ ")"]
    else []
  let l2 : List String :=
    match product.rating, targetProduct.rating with
    | some r, some tr =>
      if r ≠ 0 ∧ tr ≠ 0 ∧ tr < r then
        ["⭐ Higher rated (" ++ toString r.num ++ " vs " ++ toString tr.num ++ ")"]
      else []
    | _, _ => []
  let l3 : List String :=
    if "save-money" ∈ criteria.userGoals ∧ product.priceNumeric < targetProduct.priceNumeric then
      ["🎯 Aligns with your \"Save Money\" goal"]
    else []
  let l4 : List String :=
    match product.rating with
    | some r =>
      if "quality-first" ∈ criteria.userGoals ∧ r ≠ 0 ∧ r ≥ 4.5 then
        ["✨ High quality (" ++ toString r.num ++ "⭐)"]
      else []
    | none => []
  let l5 : List String :=
    if "eco-friendly" ∈ criteria.userGoals ∧ hasEcoMarker product.title then
      ["🌱 Eco-friendly option"]
    else []
  let l6 : List String :=
    if product.category = targetProduct.category then
      ["📦 Same category (" ++ product.category ++ ")"]
    else []
  (l1 ++ l2 ++ l3 ++ l4 ++ l5 ++ l6).take 4

/-- The `getBetterMatches` method. -/
def getBetterMatches (product targetProduct : Product)
    (criteria : RecommendationCriteria) : Option (List String) :=
  let b1 : List String :=
    if "save-money" ∈ criteria.userGoals ∧
        product.priceNumeric < targetProduct.priceNumeric then
      ["save-money"]
    else []
  let b2 : List String :=
    match product.rating, targetProduct.rating with
    | some r, some tr =>
      if "quality-first" ∈ criteria.userGoals ∧ r ≠ 0 ∧ tr ≠ 0 ∧ tr < r then
        ["quality-first"]
      else []
    | _, _ => []
  let betterMatches := b1 ++ b2
  if 0 < betterMatches.length then some betterMatches else none

/-- The `findBetterAlternatives` method: drop the target itself, require
similarity ≥ 0.3, score each survivor, keep scores > 0.5, sort descending by
score (stable, as `Array.prototype.sort`) and keep the top five. -/
def findBetterAlternatives (targetProduct : Product) (allProducts : List Product)
    (criteria : RecommendationCriteria) : List ProductRecommendation :=
  let recommendations := allProducts.filterMap (fun product =>
    if product.id = targetProduct.id then none
    else if calculateSimilarity targetProduct product < 0.3 then none
    else
      let score := calculateRecommendationScore product targetProduct criteria
      let reasons := generateReasons product targetProduct criteria
      let savings := calculateSavings product targetProduct
      if 0.5 < score then
        some { product := product, score := score, reasons := reasons,
               savings := if 0 < savings then some savings else none,
               betterMatch := getBetterMatches product targetProduct criteria }
      else none)
  (recommendations.mergeSort (fun a b => b.score ≤ a.score)).take 5

/-- Category occurrence counting in first-occurrence order, as a plain
JavaScript object keyed by category accumulates counts. -/
def bumpCategory (acc : List (String × ℕ)) (c : String) : List (String × ℕ) :=
  if acc.any (fun kv => kv.1 == c) then
    acc.map (fun kv => if kv.1 == c then (kv.1, kv.2 + 1) else kv)
  else acc ++ [(c, 1)]

/-- Top-3 categories by descending count (stable sort keeps first-occurrence
order between equal counts), as `Object.entries(...).sort(...).slice(0, 3)`. -/
def topCategories (ps : List Product) : List String :=
  let counts := ps.foldl (fun acc p => bumpCategory acc p.category) []
  ((counts.mergeSort (fun a b => b.2 ≤ a.2)).take 3).map (fun kv => kv.1)

/-- The `analyzeSwipePatterns` method: average prices per bucket, top-3
liked/disliked categories, and the mean rating of rated liked products. -/
def analyzeSwipePatterns (preferences : UserPreferences) : UserPatterns :=
  let liked := preferences.likedProducts
  let disliked := preferences.dislikedProducts
  let avgLikedPrice : ℚ :=
    if 0 < liked.length then
      (liked.map (fun p => p.priceNumeric)).sum / liked.length
    else 0
  let avgDislikedPrice : ℚ :=
    if 0 < disliked.length then
      (disliked.map (fun p => p.priceNumeric)).sum / disliked.length
    else 0
  let likedRatings := liked.filterMap (fun p => p.rating)
  let qualityThreshold : ℚ :=
    if 0 < likedRatings.length then likedRatings.sum / likedRatings.length else 0
  { avgLikedPrice := avgLikedPrice
    avgDislikedPrice := avgDislikedPrice
    preferredCategories := topCategories liked
    avoidedCategories := topCategories disliked
    qualityThreshold := qualityThreshold }

/-! ## Deterministic scorer (`ProductAnalyzer.determineShouldBuy`) -/

/-- Buy/consider/skip recommendation category. -/
inductive BuyRec
  | buy
  | consider
  | skip
deriving DecidableEq

/-- Result shape of `determineShouldBuy`. -/
structure ShouldBuy where
  recommendation : BuyRec
  reasons : List String
  score : ℚ
deriving DecidableEq

/-- Rule-based score and reasons accumulation of `determineShouldBuy`,
before bucketing and clamping: starts at 0.5 and applies the price, quality,
category and goal adjustments in source order.  A zero rating is falsy in
`if (product.rating)`, hence skips the quality adjustment. -/
def determineShouldBuyScore (product : Product)
    (criteria : RecommendationCriteria) (patterns : UserPatterns) :
    ℚ × List String :=
  let s0 : ℚ := 0.5
  let acc1 : ℚ × List String :=
    if 0 < patterns.avgLikedPrice then
      if product.priceNumeric ≤ patterns.avgLikedPrice * 1.2 then
        (s0 + 0.2, ["✅ Within your typical price range"])
      else
        (s0 - 0.2, ["⚠️ Above your usual spending"])
    else (s0, [])
  let acc2 : ℚ × List String :=
    match product.rating with
    | some r =>
      if r ≠ 0 then
        if patterns.qualityThreshold ≤ r then
          (acc1.1 + 0.15, acc1.2 ++ ["✅ Meets your quality standards"])
        else
          (acc1.1 - 0.15, acc1.2 ++ ["⚠️ Below your usual quality threshold"])
      else acc1
    | none => acc1
  let acc3 : ℚ × List String :=
    if product.category ∈ patterns.preferredCategories then
      (acc2.1 + 0.15, acc2.2 ++ ["✅ You typically like " ++ product.category ++ " items"])
    else if product.category ∈ patterns.avoidedCategories then
      (acc2.1 - 0.2, acc2.2 ++ ["⚠️ You usually skip " ++ product.category ++ " items"])
    else acc2
  let acc4 : ℚ × List String :=
    if "save-money" ∈ criteria.userGoals ∧ 100 < product.priceNumeric then
      (acc3.1 - 0.1, acc3.2 ++ ["⚠️ May not align with \"Save Money\" goal"])
    else acc3
  let acc5 : ℚ × List String :=
    match product.rating with
    | some r =>
      if "quality-first" ∈ criteria.userGoals ∧ r ≠ 0 ∧ 4.5 ≤ r then
        (acc4.1 + 0.1, acc4.2 ++ ["✅ High quality matches your goal"])
      else acc4
    | none => acc4
  let acc6 : ℚ × List String :=
    if "eco-friendly" ∈ criteria.userGoals then
      if hasEcoMarker product.title then
        (acc5.1 + 0.1, acc5.2 ++ ["✅ Eco-friendly option"])
      else acc5
    else acc5
  acc6

/-- The `determineShouldBuy` method: bucket the accumulated score
(`≥ 0.7 → buy`, `≥ 0.4 → consider`, else `skip`) and clamp the reported
score to `[0, 1]`. -/
def determineShouldBuy (product : Product)
    (criteria : RecommendationCriteria) (patterns : UserPatterns) : ShouldBuy :=
  let acc := determineShouldBuyScore product criteria patterns
  let recommendation : BuyRec :=
    if 0.7 ≤ acc.1 then .buy else if 0.4 ≤ acc.1 then .consider else .skip
  { recommendation := recommendation
    reasons := acc.2
    score := max 0 (min 1 acc.1) }

/-- Monotone bucketing of a score, per the data-model invariant:
`score ≥ 0.7 → buy`, `0.4 ≤ score < 0.7 → consider`, else `skip`. -/
def scoreBucket (s : ℚ) : BuyRec :=
  if 0.7 ≤ s then .buy else if 0.4 ≤ s then .consider else .skip

/-- Clamping to `[0, 1]` does not change the bucket of a score. -/
theorem scoreBucket_clamp (x : ℚ) : scoreBucket (max 0 (min 1 x)) = scoreBucket x := by
  unfold scoreBucket
  rcases le_or_lt (0.7 : ℚ) x with h7 | h7
  · have hmin : (0.7 : ℚ) ≤ min 1 x := le_min (by norm_num) h7
    have hmax : (0.7 : ℚ) ≤ max 0 (min 1 x) := le_trans hmin (le_max_right 0 _)
    rw [if_pos hmax, if_pos h7]
  · have hx1 : min 1 x = x := min_eq_right (by linarith)
    rcases le_or_lt (0 : ℚ) x with h0 | h0
    · have hx2 : max 0 (min 1 x) = x := by rw [hx1]; exact max_eq_right h0
      rw [hx2]
    · have hx2 : max 0 (min 1 x) = 0 := by rw [hx1]; exact max_eq_left (le_of_lt h0)
      rw [hx2]
      have hx4 : ¬ (0.4 : ℚ) ≤ x := by linarith
      rw [if_neg (by norm_num : ¬ (0.7 : ℚ) ≤ 0),
        if_neg (by norm_num : ¬ (0.4 : ℚ) ≤ 0),
        if_neg (not_le.mpr h7), if_neg hx4]

/-- C2. For every product, criteria and pattern input, the deterministic
scorer returns a score inside `[0, 1]` and a recommendation equal to the
monotone bucketing of that score (`buy` iff score ≥ 0.7, `consider` iff
0.4 ≤ score < 0.7, else `skip`). -/
theorem determineShouldBuy_score_in_unit_and_bucketed
    (product : Product) (criteria : RecommendationCriteria)
    (patterns : UserPatterns) :
    0 ≤ (determineShouldBuy product criteria patterns).score ∧
    (determineShouldBuy product criteria patterns).score ≤ 1 ∧
    (determineShouldBuy product criteria patterns).recommendation =
      scoreBucket (determineShouldBuy product criteria patterns).score := by
  unfold determineShouldBuy
  refine ⟨le_max_left 0 _, ?_, ?_⟩
  · exact max_le (by norm_num) (min_le_left 1 _)
  · rw [scoreBucket_clamp]
    rfl

/-! ## Scenario input for the deterministic scorer (spec §8, scenario 1) -/

/-- Target product of spec scenario 1: $89.99 electronics item rated 4.6. -/
def scenario1Product : Product :=
  { id := "p1", title := "Wireless Headphones", price := "$89.99",
    priceNumeric := 89.99, image := "", category := "Electronics",
    rating := some 4.6 }

/-- Criteria of spec scenario 1: only the save-money goal is selected, so no
goal-specific rule triggers at a price of $89.99. -/
def scenario1Criteria : RecommendationCriteria :=
  { userGoals := ["save-money"], goalWeights := [],
    priceSensitivity := { level := .moderate, maxPrice := some 100,
                          willingToPayMore := false } }

/-- Patterns of spec scenario 1: average liked price $50, quality threshold
4.5, Electronics preferred. -/
def scenario1Patterns : UserPatterns :=
  { avgLikedPrice := 50, avgDislikedPrice := 0,
    preferredCategories := ["Electronics"], avoidedCategories := [],
    qualityThreshold := 4.5 }

/-- C8. On the spec scenario (price $89.99 against average liked price $50,
rating 4.6 against threshold 4.5, preferred category Electronics, no goal
rule triggered) the deterministic scorer yields
score 0.5 − 0.2 + 0.15 + 0.15 = 0.60 and recommendation consider. -/
theorem determineShouldBuy_scenario1 :
    (determineShouldBuy scenario1Product scenario1Criteria scenario1Patterns).score
      = 0.5 - 0.2 + 0.15 + 0.15 ∧
    (determineShouldBuy scenario1Product scenario1Criteria scenario1Patterns).score = 0.6 ∧
    (determineShouldBuy scenario1Product scenario1Criteria scenario1Patterns).recommendation
      = BuyRec.consider := by
  have hscore : determineShouldBuyScore scenario1Product scenario1Criteria scenario1Patterns
      = (0.6, ["⚠️ Above your usual spending", "✅ Meets your quality standards",
               "✅ You typically like Electronics items"]) := by
    unfold determineShouldBuyScore scenario1Product scenario1Criteria scenario1Patterns
    norm_num
    rfl
  unfold determineShouldBuy
  rw [hscore]
  norm_num

/-! ## Cache (`src/utils/cache.ts`) -/

/-- Entry of the TTL cache. -/
structure CacheEntry (α : Type) where
  data : α
  timestamp : ℤ
  expiresAt : ℤ
deriving DecidableEq

/-- The backing `Map` of the cache, as a partial lookup function. -/
def CacheStore (α : Type) : Type := String → Option (CacheEntry α)

/-- Map update, as `Map.prototype.set`. -/
def mapInsert {β : Type} (m : String → Option β) (k : String) (v : β) :
    String → Option β :=
  fun q => if q = k then some v else m q

/-- Map removal, as `Map.prototype.delete`. -/
def mapRemove {β : Type} (m : String → Option β) (k : String) :
    String → Option β :=
  fun q => if q = k then none else m q

namespace Cache

/-- Default TTL of 24 hours in milliseconds. -/
def defaultTTL : ℤ := 24 * 60 * 60 * 1000

/-- Cache.get: return the payload unless `Date.now() > entry.expiresAt`, in
which case delete the entry and return `null`.  The possibly-shrunk store is
returned alongside. -/
def get {α : Type} (storage : CacheStore α) (now : ℤ) (key : String) :
    Option α × CacheStore α :=
  match storage key with
  | none => (none, storage)
  | some entry =>
    if entry.expiresAt < now then (none, mapRemove storage key)
    else (some entry.data, storage)

/-- TTL defaulting of `ttl || this.defaultTTL`: a zero or absent `ttl` is
falsy and falls back to the default. -/
def ttlOrDefault (ttl : Option ℤ) : ℤ :=
  match ttl with
  | some v => if v = 0 then defaultTTL else v
  | none => defaultTTL

/-- Cache.set: store with `expiresAt = now + (ttl || defaultTTL)`. -/
def set {α : Type} (storage : CacheStore α) (now : ℤ) (key : String)
    (data : α) (ttl : Option ℤ) : CacheStore α :=
  mapInsert storage key
    { data := data, timestamp := now, expiresAt := now + ttlOrDefault ttl }

end Cache

/-- Store holding exactly one entry written at time 0 with TTL 100, used to
exercise the expiry boundary. -/
def boundaryStore : CacheStore String := Cache.set (fun _ => none) 0 "k" "v" (some 100)

/-- C4 counterexample: the entry written at time 0 with TTL 100 expires at
100, yet `get` at `now = 100` still returns the payload — `get` keeps an
entry with `now = expiresAt`, refuting the claimed strict `now < expiresAt`
condition for returning the payload. -/
theorem cache_get_at_exact_expiry_returns_payload :
    (Cache.get boundaryStore 100 "k").1 = some "v" ∧
    boundaryStore "k" = some { data := "v", timestamp := 0, expiresAt := 100 } ∧
    ¬ ((100 : ℤ) < 100) := by
  refine ⟨by decide, by decide, by decide⟩

/-- C4 amended: `get(key)` returns the stored payload exactly when
`now ≤ expiresAt` (eviction happens only strictly past expiry, and then the
entry is deleted and `null` returned), and `set(key, payload, ttl)` with a
nonzero `ttl` stores the entry with `expiresAt = now + ttl`. -/
theorem cache_get_set_semantics {α : Type} (storage : CacheStore α)
    (now : ℤ) (key : String) (d : α) (ttl : ℤ) (httl : ttl ≠ 0) :
    ((Cache.get storage now key).1 = some d ↔
      ∃ e, storage key = some e ∧ e.data = d ∧ now ≤ e.expiresAt) ∧
    ((∃ e, storage key = some e ∧ e.expiresAt < now) →
      (Cache.get storage now key).1 = none ∧
      (Cache.get storage now key).2 key = none) ∧
    Cache.set storage now key d (some ttl) key =
      some { data := d, timestamp := now, expiresAt := now + ttl } := by
  refine ⟨?_, ?_, ?_⟩
  · cases hk : storage key with
    | none => simp [Cache.get, hk]
    | some entry =>
      by_cases hexp : entry.expiresAt < now
      · simp only [Cache.get, hk, if_pos hexp]
        constructor
        · intro h
          cases h
        · rintro ⟨e, he, hd, hle⟩
          cases he
          exact absurd hexp (not_lt.mpr hle)
      · simp only [Cache.get, hk, if_neg hexp]
        constructor
        · intro h
          exact ⟨entry, rfl, Option.some_injective _ h.symm ▸ rfl, not_lt.mp hexp⟩
        · rintro ⟨e, he, hd, _⟩
          cases he
          rw [hd]
  · rintro ⟨e, he, hlt⟩
    refine ⟨?_, ?_⟩
    · simp [Cache.get, he, if_pos hlt]
    · simp [Cache.get, he, if_pos hlt, mapRemove]
  · unfold Cache.set mapInsert
    rw [if_pos rfl]
    simp only [Cache.ttlOrDefault]
    rw [if_neg httl]

/-- C4 amended, witness: the boundary store read at `now = 100 = expiresAt`
returns the payload, and a fresh write with TTL 50 at time 10 expires at 60. -/
theorem cache_get_set_semantics_witness :
    (((Cache.get boundaryStore 100 "k").1 = some "v" ↔
      ∃ e, boundaryStore "k" = some e ∧ e.data = "v" ∧ (100 : ℤ) ≤ e.expiresAt) ∧
    ((∃ e, boundaryStore "k" = some e ∧ e.expiresAt < 100) →
      (Cache.get boundaryStore 100 "k").1 = none ∧
      (Cache.get boundaryStore 100 "k").2 "k" = none) ∧
    Cache.set boundaryStore 100 "k" "v" (some 50) "k" =
      some { data := "v", timestamp := 100, expiresAt := 100 + 50 }) :=
  cache_get_set_semantics boundaryStore 100 "k" "v" 50 (by decide)

/-! ## RateLimiter (`src/utils/rateLimiter.ts`) -/

/-- Constructor configuration of a `RateLimiter`. -/
structure RateLimitConfig where
  maxRequests : ℕ
  windowMs : ℤ
deriving DecidableEq

/-- The `RateLimitError` thrown on quota exhaustion. -/
structure RateLimitError where
  message : String
  waitTime : ℤ
deriving DecidableEq

/-- Per-service map of recorded request timestamps. -/
def RateStore : Type := String → Option (List ℤ)

namespace RateLimiter

/-- RateLimiter.check: prune timestamps at or before `now − windowMs`, throw
a `RateLimitError` when the pruned count reaches `maxRequests`, else record
`now`.  The store after the call is returned alongside; the throw happens
before the pruned list is written back, so the store comes back unchanged on
rejection.  (`headD 0` stands for `requestTimes[0]`; the pruned list is
nonempty whenever `maxRequests ≥ 1`, so the default is unreachable in the
configured limiters.) -/
def check (config : RateLimitConfig) (requests : RateStore) (now : ℤ)
    (key : String) : Except RateLimitError Bool × RateStore :=
  let windowStart := now - config.windowMs
  let requestTimes := (requests key).getD []
  let pruned := requestTimes.filter (fun time => windowStart < time)
  if config.maxRequests ≤ pruned.length then
    let oldestRequest := pruned.headD 0
    let waitTime := oldestRequest + config.windowMs - now
    (.error { message := "Rate limit exceeded. Try again in " ++
                toString ((waitTime + 999) / 1000) ++ " seconds.",
              waitTime := waitTime },
     requests)
  else
    (.ok true, mapInsert requests key (pruned ++ [now]))

end RateLimiter

/-- C5. With at least one allowed request configured and all recorded
timestamps in the past, `check` either rejects — when the timestamps that
survive pruning already reach `maxRequests` — with a wait time that is
positive and at most the window length, or records `now` for the key and
succeeds. -/
theorem rateLimiter_check_spec (config : RateLimitConfig) (requests : RateStore)
    (now : ℤ) (key : String) (hmax : 1 ≤ config.maxRequests)
    (hpast : ∀ t ∈ (requests key).getD [], t ≤ now) :
    (config.maxRequests ≤
        (((requests key).getD []).filter (fun time => now - config.windowMs < time)).length →
      ∃ e, (RateLimiter.check config requests now key).1 = .error e ∧
        0 < e.waitTime ∧ e.waitTime ≤ config.windowMs) ∧
    ((((requests key).getD []).filter (fun time => now - config.windowMs < time)).length
        < config.maxRequests →
      (RateLimiter.check config requests now key).1 = .ok true ∧
      (RateLimiter.check config requests now key).2 key =
        some ((((requests key).getD []).filter (fun time => now - config.windowMs < time)) ++ [now])) := by
  constructor
  · intro hfull
    unfold RateLimiter.check
    rw [if_pos hfull]
    refine ⟨_, rfl, ?_, ?_⟩
    · have hne : (((requests key).getD []).filter (fun time => now - config.windowMs < time)) ≠ [] := by
        intro hnil
        rw [hnil] at hfull
        simp at hfull
        omega
      set pruned := ((requests key).getD []).filter (fun time => now - config.windowMs < time) with hp
      obtain ⟨a, l, hal⟩ := List.exists_cons_of_ne_nil hne
      have hmem : a ∈ pruned := by rw [hal]; exact List.mem_cons_self a l
      have hwin : now - config.windowMs < a := by
        have := List.of_mem_filter hmem
        exact of_decide_eq_true this
      rw [hal]
      simp only [List.headD_cons]
      omega
    · have hne : (((requests key).getD []).filter (fun time => now - config.windowMs < time)) ≠ [] := by
        intro hnil
        rw [hnil] at hfull
        simp at hfull
        omega
      set pruned := ((requests key).getD []).filter (fun time => now - config.windowMs < time) with hp
      obtain ⟨a, l, hal⟩ := List.exists_cons_of_ne_nil hne
      have hmem : a ∈ pruned := by rw [hal]; exact List.mem_cons_self a l
      have hpastA : a ≤ now := hpast a (List.mem_of_mem_filter hmem)
      rw [hal]
      simp only [List.headD_cons]
      omega
  · intro hroom
    unfold RateLimiter.check
    rw [if_neg (not_le.mpr hroom)]
    refine ⟨rfl, ?_⟩
    show mapInsert requests key _ key = _
    unfold mapInsert
    rw [if_pos rfl]

/-- Rate store with two recorded timestamps for key `g`, used to exercise a
full window. -/
def fullRateStore : RateStore := fun k => if k = "g" then some [5, 10] else none

/-- C5 witness: with quota 2, window 60000 and the two surviving timestamps
5 and 10, a check at time 20 rejects with a wait time in (0, 60000]. -/
theorem rateLimiter_check_spec_witness :
    ∃ e, (RateLimiter.check ⟨2, 60000⟩ fullRateStore 20 "g").1 = .error e ∧
      0 < e.waitTime ∧ e.waitTime ≤ 60000 :=
  (rateLimiter_check_spec ⟨2, 60000⟩ fullRateStore 20 "g"
    (by decide) (by decide)).1 (by decide)

/-- C10. A rejected check leaves the limiter state untouched: when `check`
returns a `RateLimitError`, the returned store is exactly the input store —
no new timestamp is recorded and the lazily pruned list is not written back. -/
theorem rateLimiter_check_reject_preserves_state (config : RateLimitConfig)
    (requests : RateStore) (now : ℤ) (key : String)
    (h : ∃ e, (RateLimiter.check config requests now key).1 = .error e) :
    (RateLimiter.check config requests now key).2 = requests := by
  obtain ⟨e, he⟩ := h
  unfold RateLimiter.check at he ⊢
  by_cases hfull : config.maxRequests ≤
      (((requests key).getD []).filter (fun time => now - config.windowMs < time)).length
  · rw [if_pos hfull]
  · rw [if_neg hfull] at he
    cases he

/-- Rate store holding one recorded timestamp for key `k`, filling a
single-slot limiter. -/
def singleSlotStore : RateStore := fun k => if k = "k" then some [50] else none

/-- C10 witness: a full single-slot limiter rejects a call at time 60 and the
store is returned unchanged. -/
theorem rateLimiter_check_reject_preserves_state_witness :
    (RateLimiter.check ⟨1, 100⟩ singleSlotStore 60 "k").2 = singleSlotStore :=
  rateLimiter_check_reject_preserves_state ⟨1, 100⟩ singleSlotStore 60 "k" ⟨_, rfl⟩

/-! ## Retry with backoff (`src/utils/errorHandler.ts`) -/

/-- JavaScript Error value: a `name` and a `message`. -/
structure JsError where
  name : String := "Error"
  message : String
deriving DecidableEq

/-- The `RetryOptions` interface with its source defaults. -/
structure RetryOptions where
  maxRetries : ℕ := 3
  retryDelay : ℕ := 1000
  exponentialBackoff : Bool := true
  retryable : JsError → Bool := fun _ => true

/-- The `isRetryableError` predicate, with its checks in source order:
fetch/network substrings, then a timeout substring, then a 5xx digit
pattern, then the RateLimitError name, then a 4xx digit pattern, then a
default of true. -/
def isRetryableError (error : JsError) : Bool :=
  if containsSub error.message.toList "fetch".toList ||
      containsSub error.message.toList "network".toList then true
  else if containsSub error.message.toList "timeout".toList then true
  else if hasLeadTwoDigits '5' error.message.toList then true
  else if error.name == "RateLimitError" then false
  else if hasLeadTwoDigits '4' error.message.toList then false
  else true

/-- Loop body of `withRetry`: `fn` gives the outcome of each attempt
(indexed from 0), `remaining` counts the attempts still allowed after the
current one (`maxRetries − attempt`).  Returns the final outcome together
with the list of backoff delays awaited, in order: a non-retryable error is
rethrown with no delay, the last attempt breaks out of the loop, and
otherwise a delay of `retryDelay × 2^attempt` precedes the next attempt. -/
def withRetryGo {α : Type} (fn : ℕ → Except JsError α) (retryable : JsError → Bool)
    (retryDelay : ℕ) (exponentialBackoff : Bool) :
    ℕ → ℕ → Except JsError α × List ℕ
  | 0, attempt =>
    -- last attempt: a non-retryable error is rethrown and a retryable one
    -- breaks out of the loop; either way the error surfaces with no delay
    (match fn attempt with
     | .ok v => (.ok v, [])
     | .error e => (.error e, []))
  | r + 1, attempt =>
    match fn attempt with
    | .ok v => (.ok v, [])
    | .error e =>
      if retryable e = false then (.error e, [])
      else
        let delay := if exponentialBackoff then retryDelay * 2 ^ attempt else retryDelay
        let rest := withRetryGo fn retryable retryDelay exponentialBackoff r (attempt + 1)
        (rest.1, delay :: rest.2)

/-- The `withRetry` combinator: run the loop from attempt 0 with
`maxRetries` further attempts allowed. -/
def withRetry {α : Type} (fn : ℕ → Except JsError α) (options : RetryOptions) :
    Except JsError α × List ℕ :=
  withRetryGo fn options.retryable options.retryDelay options.exponentialBackoff
    options.maxRetries 0

/-- An error carrying any of the four retryable markers (fetch, network,
timeout, or a 5xx digit pattern) is classified retryable. -/
theorem isRetryableError_of_marker (e : JsError)
    (h : containsSub e.message.toList "fetch".toList = true ∨
         containsSub e.message.toList "network".toList = true ∨
         containsSub e.message.toList "timeout".toList = true ∨
         hasLeadTwoDigits '5' e.message.toList = true) :
    isRetryableError e = true := by
  unfold isRetryableError
  rcases h with h | h | h | h
  · rw [h]
    rfl
  · rw [h, Bool.or_true]
    rfl
  · cases hfn : (containsSub e.message.toList "fetch".toList ||
        containsSub e.message.toList "network".toList) with
    | true => rfl
    | false => rw [h]; rfl
  · cases hfn : (containsSub e.message.toList "fetch".toList ||
        containsSub e.message.toList "network".toList) with
    | true => rfl
    | false =>
      cases hto : containsSub e.message.toList "timeout".toList with
      | true => rfl
      | false => rw [h]; rfl

/-- An error carrying none of the retryable markers that is either named
RateLimitError or carries a 4xx digit pattern is classified non-retryable. -/
theorem isRetryableError_eq_false (e : JsError)
    (hf : containsSub e.message.toList "fetch".toList = false)
    (hn : containsSub e.message.toList "network".toList = false)
    (ht : containsSub e.message.toList "timeout".toList = false)
    (h5 : hasLeadTwoDigits '5' e.message.toList = false)
    (hkind : e.name = "RateLimitError" ∨ hasLeadTwoDigits '4' e.message.toList = true) :
    isRetryableError e = false := by
  unfold isRetryableError
  rw [hf, hn, ht, h5]
  simp only [Bool.or_self, Bool.false_eq_true, if_false]
  rcases hkind with hk | hk
  · rw [hk]
    rfl
  · cases hrl : e.name == "RateLimitError" with
    | true => rfl
    | false => rw [hk]; rfl

/-- A persistently failing retryable error exhausts the loop: every allowed
attempt is made and each backoff delay is `retryDelay × 2^attempt`. -/
theorem withRetryGo_const_error {α : Type} (e : JsError) (retryable : JsError → Bool)
    (retryDelay : ℕ) (hr : retryable e = true) :
    ∀ remaining attempt,
      withRetryGo (fun _ => (.error e : Except JsError α)) retryable retryDelay true
          remaining attempt =
        (.error e, (List.range remaining).map (fun i => retryDelay * 2 ^ (attempt + i))) := by
  intro remaining
  induction remaining with
  | zero =>
    intro attempt
    simp [withRetryGo]
  | succ r ih =>
    intro attempt
    simp only [withRetryGo, hr, Bool.true_eq_false, if_false, ih (attempt + 1)]
    rw [List.range_succ_eq_map]
    simp only [List.map_cons, List.map_map]
    simp only [if_true, Nat.add_zero, Function.comp_apply, Nat.succ_eq_add_one]
    refine congrArg (Prod.mk _) (congrArg (List.cons _) (List.map_congr_left ?_))
    intro i _
    have h : attempt + 1 + i = attempt + (i + 1) := by omega
    rw [h]
    rfl

/-- C9 counterexample: `isRetryableError` checks the message markers before
the error name, so an error named RateLimitError whose message contains
`timeout` is classified retryable and `withRetry` retries it to exhaustion
(three backoff delays with the default options) instead of rethrowing it
immediately — refuting that an error named RateLimitError is never retried. -/
theorem withRetry_retries_named_rateLimitError :
    ({ name := "RateLimitError", message := "timeout" } : JsError).name = "RateLimitError" ∧
    withRetry (fun _ => (.error { name := "RateLimitError", message := "timeout" } :
        Except JsError Unit))
      { retryable := isRetryableError } =
      (.error { name := "RateLimitError", message := "timeout" }, [1000, 2000, 4000]) :=
  ⟨rfl, rfl⟩

/-- C9 amended: with `isRetryableError` as predicate, `withRetry` rethrows
immediately — with no retry and no delay — an error that is named
RateLimitError or whose message indicates a 4xx status, provided the message
does not also contain one of the retryable markers (a fetch, network or
timeout substring, or a 5xx digit pattern), which are checked first; and a
persistently failing error carrying a retryable marker (timeout, network,
fetch, 5xx) is retried up to `maxRetries` times, the delay before the
(attempt+1)-th retry being `retryDelay × 2^attempt`. -/
theorem withRetry_isRetryableError_policy {α : Type}
    (fn1 : ℕ → Except JsError α) (e1 e2 : JsError) (mr rd : ℕ)
    (h1 : fn1 0 = .error e1)
    (hf : containsSub e1.message.toList "fetch".toList = false)
    (hn : containsSub e1.message.toList "network".toList = false)
    (ht : containsSub e1.message.toList "timeout".toList = false)
    (h5 : hasLeadTwoDigits '5' e1.message.toList = false)
    (hkind : e1.name = "RateLimitError" ∨ hasLeadTwoDigits '4' e1.message.toList = true)
    (h2 : containsSub e2.message.toList "fetch".toList = true ∨
          containsSub e2.message.toList "network".toList = true ∨
          containsSub e2.message.toList "timeout".toList = true ∨
          hasLeadTwoDigits '5' e2.message.toList = true) :
    withRetry fn1 { maxRetries := mr, retryDelay := rd, retryable := isRetryableError } =
      (.error e1, []) ∧
    withRetry (fun _ => (.error e2 : Except JsError α))
        { maxRetries := mr, retryDelay := rd, retryable := isRetryableError } =
      (.error e2, (List.range mr).map (fun attempt => rd * 2 ^ attempt)) := by
  constructor
  · unfold withRetry
    cases mr with
    | zero => simp only [withRetryGo, h1]
    | succ m =>
      simp only [withRetryGo, h1]
      rw [isRetryableError_eq_false e1 hf hn ht h5 hkind]
      simp
  · unfold withRetry
    rw [withRetryGo_const_error e2 isRetryableError rd (isRetryableError_of_marker e2 h2)]
    refine congrArg _ (List.map_congr_left ?_)
    intro i _
    rw [Nat.zero_add]

/-- JsError with the message the rate limiter actually produces. -/
def rateLimitJsError : JsError :=
  { name := "RateLimitError", message := "Rate limit exceeded. Try again in 3 seconds." }

/-- JsError with the message the Gemini timeout path actually produces. -/
def timeoutJsError : JsError :=
  { message := "Gemini API timeout after 5 minutes" }

/-- C9 amended, witness: the genuine rate-limit message is rethrown at once
with no delays, while a persistent timeout message is retried three times
with delays 1000, 2000, 4000. -/
theorem withRetry_isRetryableError_policy_witness :
    withRetry (fun _ => (.error rateLimitJsError : Except JsError Unit))
      { maxRetries := 3, retryDelay := 1000, retryable := isRetryableError } =
      (.error rateLimitJsError, []) ∧
    withRetry (fun _ => (.error timeoutJsError : Except JsError Unit))
      { maxRetries := 3, retryDelay := 1000, retryable := isRetryableError } =
      (.error timeoutJsError,
        (List.range 3).map (fun attempt => 1000 * 2 ^ attempt)) :=
  withRetry_isRetryableError_policy
    (fun _ => .error rateLimitJsError) rateLimitJsError timeoutJsError 3 1000 rfl
    (by decide) (by decide) (by decide) (by decide) (Or.inl rfl)
    (Or.inr (Or.inr (Or.inl (by decide))))

/-- Comparator totality for the descending sort by score. -/
theorem scoreDescTotal (a b : ProductRecommendation) :
    ((fun x y : ProductRecommendation => decide (y.score ≤ x.score)) a b ||
     (fun x y : ProductRecommendation => decide (y.score ≤ x.score)) b a) = true := by
  simp only [Bool.or_eq_true, decide_eq_true_eq]
  exact le_total b.score a.score

/-- Comparator transitivity for the descending sort by score. -/
theorem scoreDescTrans (a b c : ProductRecommendation)
    (hab : (fun x y : ProductRecommendation => decide (y.score ≤ x.score)) a b = true)
    (hbc : (fun x y : ProductRecommendation => decide (y.score ≤ x.score)) b c = true) :
    (fun x y : ProductRecommendation => decide (y.score ≤ x.score)) a c = true := by
  simp only [decide_eq_true_eq] at hab hbc ⊢
  exact le_trans hbc hab

/-- C7. Every entry returned by `findBetterAlternatives` is a candidate
distinct from the target with similarity ≥ 0.3 to it and recommendation
score strictly above 0.5 (the entry carrying exactly that score); the
returned list is sorted by score descending and has at most five entries. -/
theorem findBetterAlternatives_filters_sorts_truncates
    (targetProduct : Product) (allProducts : List Product)
    (criteria : RecommendationCriteria) :
    (∀ r ∈ findBetterAlternatives targetProduct allProducts criteria,
      r.product ∈ allProducts ∧ r.product.id ≠ targetProduct.id ∧
      0.3 ≤ calculateSimilarity targetProduct r.product ∧
      0.5 < calculateRecommendationScore r.product targetProduct criteria ∧
      r.score = calculateRecommendationScore r.product targetProduct criteria) ∧
    List.Pairwise (fun a b => b.score ≤ a.score)
      (findBetterAlternatives targetProduct allProducts criteria) ∧
    (findBetterAlternatives targetProduct allProducts criteria).length ≤ 5 := by
  refine ⟨?_, ?_, ?_⟩
  · intro r hr
    unfold findBetterAlternatives at hr
    have hr2 := (List.take_sublist 5 _).subset hr
    have hr3 := ((List.mergeSort_perm _ _).mem_iff).mp hr2
    obtain ⟨p, hp, hf⟩ := List.mem_filterMap.mp hr3
    by_cases hid : p.id = targetProduct.id
    · rw [if_pos hid] at hf
      cases hf
    · rw [if_neg hid] at hf
      by_cases hsim : calculateSimilarity targetProduct p < 0.3
      · rw [if_pos hsim] at hf
        cases hf
      · rw [if_neg hsim] at hf
        by_cases hscore : 0.5 < calculateRecommendationScore p targetProduct criteria
        · rw [if_pos hscore] at hf
          have hrp : r.product = p := by rw [← Option.some_injective _ hf]
          have hrs : r.score = calculateRecommendationScore p targetProduct criteria := by
            rw [← Option.some_injective _ hf]
          rw [hrp, hrs]
          exact ⟨hp, hid, not_lt.mp hsim, hscore, rfl⟩
        · rw [if_neg hscore] at hf
          cases hf
  · unfold findBetterAlternatives
    have hs := List.sorted_mergeSort scoreDescTrans scoreDescTotal
      (allProducts.filterMap (fun product =>
        if product.id = targetProduct.id then none
        else if calculateSimilarity targetProduct product < 0.3 then none
        else
          let score := calculateRecommendationScore product targetProduct criteria
          let reasons := generateReasons product targetProduct criteria
          let savings := calculateSavings product targetProduct
          if 0.5 < score then
            some { product := product, score := score, reasons := reasons,
                   savings := if 0 < savings then some savings else none,
                   betterMatch := getBetterMatches product targetProduct criteria }
          else none))
    have hs2 := hs.sublist (List.take_sublist 5 _)
    exact hs2.imp (fun h => of_decide_eq_true h)
  · unfold findBetterAlternatives
    rw [List.length_take]
    exact min_le_left 5 _

/-! ## Gemini orchestration (`src/services/geminiService.ts`) -/

/-- Whitespace removal of `replace(/\s/g, "")`, with the regex class `\s`
modelled by `Char.isWhitespace`. -/
def stripWhitespaceChars (s : List Char) : List Char :=
  s.filter (fun c => !c.isWhitespace)

/-- Fingerprint cache key of `callGemini`:
`gemini:` followed by the first 100 characters of the prompt with
whitespace removed. -/
def geminiCacheKey (prompt : String) : String :=
  "gemini:" ++ String.mk (stripWhitespaceChars (prompt.toList.take 100))

/-- Configuration of the module-level `geminiRateLimiter`: 10 requests per
minute. -/
def geminiRateLimiterConfig : RateLimitConfig := { maxRequests := 10, windowMs := 60 * 1000 }

/-- TTL used by `callGemini` when writing through to the cache: 24 hours. -/
def geminiResponseTTL : ℤ := 24 * 60 * 60 * 1000

/-- Error thrown when the Gemini response carries no text. -/
def geminiNoTextError : JsError := { message := "No response text from Gemini API" }

/-- A thrown `RateLimitError` as a JavaScript error value. -/
def rateLimitErrorToJs (e : RateLimitError) : JsError :=
  { name := "RateLimitError", message := e.message }

/-- Mutable state owned by the orchestrator: the response cache and the
per-service rate windows. -/
structure OrchState where
  cache : CacheStore String
  limiter : RateStore

/-- Cache-miss path of `callGemini`: rate-limit check (a `RateLimitError`
is rethrown), then the fetch under `withRetry` with `isRetryableError`
(`ext` is the oracle giving each external attempt either a thrown error or
the extracted response text; an empty text is the falsy `!text` case and
throws), then the write-through to the cache on success.  The third
component counts the external attempts issued. -/
def callGeminiMiss (cacheKey : String) (useCache : Bool) (cache2 : CacheStore String)
    (limiter : RateStore) (now : ℤ) (ext : ℕ → Except JsError String) :
    Except JsError String × OrchState × ℕ :=
  match RateLimiter.check geminiRateLimiterConfig limiter now "gemini-api" with
  | (.error e, limiter2) => (.error (rateLimitErrorToJs e), ⟨cache2, limiter2⟩, 0)
  | (.ok _, limiter2) =>
    let res := withRetry
      (fun attempt =>
        match ext attempt with
        | .ok text => if text = "" then .error geminiNoTextError else .ok text
        | .error e => .error e)
      { retryable := isRetryableError }
    match res.1 with
    | .ok text =>
      let cache3 := if useCache then Cache.set cache2 now cacheKey text (some geminiResponseTTL)
        else cache2
      (.ok text, ⟨cache3, limiter2⟩, res.2.length + 1)
    | .error e => (.error e, ⟨cache2, limiter2⟩, res.2.length + 1)

/-- The `callGemini` orchestration: compute the fingerprint key, consult the
cache first (a truthy hit returns immediately; `get` may evict an expired
entry), and otherwise run the miss path. -/
def callGemini (prompt : String) (useCache : Bool) (st : OrchState) (now : ℤ)
    (ext : ℕ → Except JsError String) : Except JsError String × OrchState × ℕ :=
  let cacheKey := geminiCacheKey prompt
  if useCache then
    match Cache.get st.cache now cacheKey with
    | (some cached, cache2) =>
      if cached ≠ "" then (.ok cached, ⟨cache2, st.limiter⟩, 0)
      else callGeminiMiss cacheKey useCache cache2 st.limiter now ext
    | (none, cache2) => callGeminiMiss cacheKey useCache cache2 st.limiter now ext
  else callGeminiMiss cacheKey useCache st.cache st.limiter now ext

/-- C6. When the cache holds an unexpired entry with a truthy payload under
the fingerprint key of the request, `callGemini` returns exactly the cached
payload, the whole orchestrator state — in particular the rate-limiter
window — is unchanged, and no external attempt is issued. -/
theorem callGemini_cache_hit_is_free (prompt : String) (st : OrchState) (now : ℤ)
    (ext : ℕ → Except JsError String) (entry : CacheEntry String)
    (hentry : st.cache (geminiCacheKey prompt) = some entry)
    (hfresh : now ≤ entry.expiresAt) (hne : entry.data ≠ "") :
    callGemini prompt true st now ext = (.ok entry.data, st, 0) := by
  unfold callGemini
  have hget : Cache.get st.cache now (geminiCacheKey prompt) = (some entry.data, st.cache) := by
    simp only [Cache.get, hentry, if_neg (not_lt.mpr hfresh)]
  rw [if_pos rfl]
  rw [hget]
  simp only [hne, ne_eq, not_false_eq_true, if_pos]

/-- Orchestrator state holding one fresh cached Gemini reply and an empty
rate window. -/
def hitState : OrchState :=
  { cache := fun k => if k = geminiCacheKey "ping" then
      some { data := "pong", timestamp := 0, expiresAt := 10 } else none,
    limiter := fun _ => none }

/-- C6 witness: a call at time 5 against the fresh entry returns the cached
text with the state unchanged and zero external attempts. -/
theorem callGemini_cache_hit_is_free_witness :
    callGemini "ping" true hitState 5 (fun _ => .error geminiNoTextError) =
      (.ok "pong", hitState, 0) :=
  callGemini_cache_hit_is_free "ping" hitState 5 (fun _ => .error geminiNoTextError)
    { data := "pong", timestamp := 0, expiresAt := 10 } (by decide) (by decide) (by decide)

/-! ## Product analyzer (`src/content/productAnalyzer.ts`) -/

/-- One factor of the Gemini match-score breakdown. -/
structure BreakdownItem where
  score : ℚ
  reasoning : String
deriving DecidableEq

/-- The per-factor breakdown of a Gemini match-score analysis. -/
structure Breakdown where
  price : BreakdownItem
  quality : BreakdownItem
  goals : BreakdownItem
  category : BreakdownItem
deriving DecidableEq

/-- The `MatchScoreAnalysis` interface returned by Gemini. -/
structure MatchScoreAnalysis where
  score : ℚ
  recommendation : BuyRec
  reasons : List String
  confidence : ℚ
  breakdown : Breakdown
deriving DecidableEq

/-- The `ProductInsights` interface returned by Gemini. -/
structure ProductInsights where
  summary : String
  strengths : List String
  concerns : List String
  valueAssessment : String
  recommendation : String
  alternativeConsiderations : List String
deriving DecidableEq

/-- The `RecommendationAnalysis` interface returned by Gemini for
alternatives. -/
structure RecommendationAnalysis where
  product : Product
  score : ℚ
  reasons : List String
  comparison : String
  savings : Option ℚ := none
deriving DecidableEq

/-- The `shouldBuy` field shape assembled by `analyzeProduct`: the rule-based
fallback carries no confidence and no breakdown. -/
structure ShouldBuyResult where
  recommendation : BuyRec
  reasons : List String
  score : ℚ
  confidence : Option ℚ
  breakdown : Option Breakdown
deriving DecidableEq

/-- The `shouldBuy` object assembled from a Gemini match-score analysis. -/
def geminiShouldBuyResult (g : MatchScoreAnalysis) : ShouldBuyResult :=
  { recommendation := g.recommendation, reasons := g.reasons, score := g.score,
    confidence := some g.confidence, breakdown := some g.breakdown }

/-- The `shouldBuy` object assembled from the deterministic scorer. -/
def ruleShouldBuyResult (s : ShouldBuy) : ShouldBuyResult :=
  { recommendation := s.recommendation, reasons := s.reasons, score := s.score,
    confidence := none, breakdown := none }

/-- The combined analysis returned by `analyzeProduct` (a `none` field models
an absent or null field of the returned object). -/
structure AnalysisResult where
  currentProduct : Product
  recommendations : List ProductRecommendation
  userPatterns : Option UserPatterns
  shouldBuy : Option ShouldBuyResult
  insights : Option ProductInsights
deriving DecidableEq

/-- Outcomes of the four external AI calls an `analyzeProduct` run makes, as
oracles: the Perplexity similar-product search, the Gemini match-score call,
the Gemini alternative-ranking call, and the Gemini insight call. -/
structure AIOutcomes where
  perplexitySearch : Except JsError (List Product)
  matchScore : Except JsError MatchScoreAnalysis
  alternatives : Except JsError (List RecommendationAnalysis)
  insights : Except JsError ProductInsights

/-- JavaScript `x || d` on an optional rating: an absent or zero rating
falls back to the default. -/
def jsOrRating (r : Option ℚ) (d : ℚ) : ℚ :=
  match r with
  | some v => if v = 0 then d else v
  | none => d

/-- The `fetchSimilarProducts` mock: three price variants of the target
(budget, premium, eco), always nonempty. -/
def fetchSimilarProducts (product : Product) : List Product :=
  let baseName := String.intercalate " " ((product.title.splitOn " ").take 3)
  [ { id := "alt-1",
      title := baseName ++ " - Budget-Friendly Option",
      price := "$" ++ ratToFixed2 (product.priceNumeric * 0.7),
      priceNumeric := product.priceNumeric * 0.7,
      image := product.image,
      category := product.category,
      rating := some (max 4.0 (jsOrRating product.rating 4.0 - 0.3)),
      features := ["budget-friendly", "good-value"] },
    { id := "alt-2",
      title := baseName ++ " - Premium Edition",
      price := "$" ++ ratToFixed2 (product.priceNumeric * 1.2),
      priceNumeric := product.priceNumeric * 1.2,
      image := product.image,
      category := product.category,
      rating := some (min 5.0 (jsOrRating product.rating 4.5 + 0.3)),
      features := ["premium", "high-quality"] },
    { id := "alt-3",
      title := baseName ++ " - Eco-Friendly Version",
      price := "$" ++ ratToFixed2 (product.priceNumeric * 0.9),
      priceNumeric := product.priceNumeric * 0.9,
      image := product.image,
      category := product.category,
      rating := some (jsOrRating product.rating 4.5),
      features := ["eco-friendly", "sustainable", "organic"] } ]

/-- The `generateInsights` helper: a Gemini failure is rethrown, and a reply
with a falsy summary fails the structure validation (the strengths and
concerns arrays are always truthy). -/
def generateInsights (res : Except JsError ProductInsights) :
    Except JsError ProductInsights :=
  match res with
  | .ok insights =>
    if insights.summary = "" then .error { message := "Insights missing required fields" }
    else .ok insights
  | .error e => .error e

/-- The `ProductAnalyzer.analyzeProduct` pipeline: `none` criteria aborts;
the Perplexity candidate search falls back to the mock products when it
fails or returns nothing; each Gemini call falls back on failure —
match-score to the deterministic scorer, alternative-ranking to the
rule-based recommendations, insights to absence. -/
def analyzeProduct (currentProduct : Product)
    (criteria : Option RecommendationCriteria)
    (userPreferences : Option UserPreferences)
    (ai : AIOutcomes) : Option AnalysisResult :=
  match criteria with
  | none => none
  | some criteria =>
    let alternativeProducts : List Product :=
      match userPreferences with
      | some _ =>
        match ai.perplexitySearch with
        | .ok ps => ps
        | .error _ => []
      | none => []
    let alternativeProducts :=
      if alternativeProducts.length = 0 then fetchSimilarProducts currentProduct
      else alternativeProducts
    let recommendations := findBetterAlternatives currentProduct alternativeProducts criteria
    match userPreferences with
    | some preferences =>
      let patterns := analyzeSwipePatterns preferences
      let shouldBuy : ShouldBuyResult :=
        match ai.matchScore with
        | .ok g => geminiShouldBuyResult g
        | .error _ => ruleShouldBuyResult (determineShouldBuy currentProduct criteria patterns)
      let aiRecommendations : List ProductRecommendation :=
        if 0 < alternativeProducts.length then
          match ai.alternatives with
          | .ok galts => galts.map (fun alt =>
              { product := alt.product, score := alt.score, reasons := alt.reasons,
                savings := alt.savings, betterMatch := none })
          | .error _ => recommendations
        else recommendations
      let insights : Option ProductInsights :=
        match generateInsights ai.insights with
        | .ok i => some i
        | .error _ => none
      some { currentProduct := currentProduct, recommendations := aiRecommendations,
             userPatterns := some patterns, shouldBuy := some shouldBuy,
             insights := insights }
    | none =>
      some { currentProduct := currentProduct, recommendations := recommendations,
             userPatterns := none, shouldBuy := none, insights := none }

/-- C1. For any target product, present criteria and preferences, and any
Perplexity outcome, if all three Gemini call types fail then
`analyzeProduct` still returns a non-null analysis whose `shouldBuy` field
is present and populated by the deterministic scorer. -/
theorem analyzeProduct_fallback_uses_deterministic_scorer
    (currentProduct : Product) (criteria : RecommendationCriteria)
    (preferences : UserPreferences) (ai : AIOutcomes) (e1 e2 e3 : JsError)
    (hm : ai.matchScore = .error e1)
    (_ha : ai.alternatives = .error e2)
    (_hi : ai.insights = .error e3) :
    ∃ r, analyzeProduct currentProduct (some criteria) (some preferences) ai = some r ∧
      r.shouldBuy = some (ruleShouldBuyResult
        (determineShouldBuy currentProduct criteria (analyzeSwipePatterns preferences))) := by
  refine ⟨_, rfl, ?_⟩
  show some _ = _
  rw [hm]

/-- Minimal preference store content for the C1 witness. -/
def emptyPreferences : UserPreferences :=
  { goals := [], goalWeights := [], likedProducts := [], dislikedProducts := [],
    priceSensitivity := { level := .moderate, willingToPayMore := false } }

/-- AI outcome bundle in which every external AI call fails. -/
def allAIFail : AIOutcomes :=
  { perplexitySearch := .error { message := "Perplexity API timeout after 30 seconds" },
    matchScore := .error { message := "Gemini API timeout after 5 minutes" },
    alternatives := .error { message := "Gemini API timeout after 5 minutes" },
    insights := .error { message := "Gemini API timeout after 5 minutes" } }

/-- C1 witness: with every AI call failing, the analyzer still yields an
analysis whose recommendation is the deterministic scorer result. -/
theorem analyzeProduct_fallback_uses_deterministic_scorer_witness :
    ∃ r, analyzeProduct scenario1Product (some scenario1Criteria) (some emptyPreferences)
        allAIFail = some r ∧
      r.shouldBuy = some (ruleShouldBuyResult
        (determineShouldBuy scenario1Product scenario1Criteria
          (analyzeSwipePatterns emptyPreferences))) :=
  analyzeProduct_fallback_uses_deterministic_scorer scenario1Product scenario1Criteria
    emptyPreferences allAIFail _ _ _ rfl rfl rfl

/-! ## JSON values and `JSON.parse` (for the Perplexity response repair) -/

/-- Parsed JSON value.  A number literal is kept as mantissa × 10^exp10,
the exact decimal the text denotes (`JSON.parse` converts it to a float;
the embedding keeps it exact). -/
inductive Json where
  | null
  | bool (b : Bool)
  | num (mantissa : ℤ) (exp10 : ℤ)
  | str (s : String)
  | arr (elems : List Json)
  | obj (fields : List (String × Json))

/-- JSON whitespace (the four characters `JSON.parse` skips). -/
def isJsonWs (c : Char) : Bool := c = ' ' ∨ c = '\t' ∨ c = '\n' ∨ c = '\r'

/-- Skip JSON whitespace. -/
def skipWs (s : List Char) : List Char := s.dropWhile isJsonWs

/-- Hex digit value for a `\u` escape. -/
def hexVal (c : Char) : Option ℕ :=
  if '0' ≤ c ∧ c ≤ '9' then some (c.toNat - '0'.toNat)
  else if 'a' ≤ c ∧ c ≤ 'f' then some (c.toNat - 'a'.toNat + 10)
  else if 'A' ≤ c ∧ c ≤ 'F' then some (c.toNat - 'A'.toNat + 10)
  else none

/-- Parse the body of a JSON string after the opening quote: returns the
decoded content and the rest after the closing quote.  Control characters
are rejected and the eight escapes plus `\uXXXX` are decoded. -/
def parseStringBody : List Char → Option (List Char × List Char)
  | [] => none
  | '"' :: rest => some ([], rest)
  | '\\' :: rest =>
    match rest with
    | [] => none
    | e :: rest2 =>
      if e = '"' ∨ e = '\\' ∨ e = '/' then
        (fun p : List Char × List Char => (e :: p.1, p.2)) <$> parseStringBody rest2
      else if e = 'b' then
        (fun p : List Char × List Char => ('\x08' :: p.1, p.2)) <$> parseStringBody rest2
      else if e = 'f' then
        (fun p : List Char × List Char => ('\x0c' :: p.1, p.2)) <$> parseStringBody rest2
      else if e = 'n' then
        (fun p : List Char × List Char => ('\n' :: p.1, p.2)) <$> parseStringBody rest2
      else if e = 'r' then
        (fun p : List Char × List Char => ('\r' :: p.1, p.2)) <$> parseStringBody rest2
      else if e = 't' then
        (fun p : List Char × List Char => ('\t' :: p.1, p.2)) <$> parseStringBody rest2
      else if e = 'u' then
        match rest2 with
        | h1 :: h2 :: h3 :: h4 :: rest3 =>
          match hexVal h1, hexVal h2, hexVal h3, hexVal h4 with
          | some a, some b, some c, some d =>
            (fun p : List Char × List Char =>
              (Char.ofNat (((a * 16 + b) * 16 + c) * 16 + d) :: p.1, p.2)) <$>
                parseStringBody rest3
          | _, _, _, _ => none
        | _ => none
      else none
  | c :: rest =>
    if c.toNat < 32 then none
    else (fun p : List Char × List Char => (c :: p.1, p.2)) <$> parseStringBody rest

/-- Digits of a number literal. -/
def digitsToNat (ds : List Char) : ℕ :=
  ds.foldl (fun acc c => acc * 10 + (c.toNat - '0'.toNat)) 0

/-- Parse a JSON number literal
(`-? (0 | [1-9][0-9]*) (. [0-9]+)? ([eE][+-]? [0-9]+)?`), returning its
mantissa/exponent form and the rest of the input. -/
def parseNumberL (s : List Char) : Option (Json × List Char) :=
  let (neg, s1) : Bool × List Char :=
    match s with
    | '-' :: r => (true, r)
    | _ => (false, s)
  let intPart : Option (List Char × List Char) :=
    match s1 with
    | '0' :: r => some (['0'], r)
    | c :: r =>
      if isDigitChar c ∧ c ≠ '0' then
        some (c :: r.takeWhile isDigitChar, r.dropWhile isDigitChar)
      else none
    | [] => none
  match intPart with
  | none => none
  | some (ids, rest1) =>
    let fracPart : Option (List Char × List Char) :=
      match rest1 with
      | '.' :: r2 =>
        let fds := r2.takeWhile isDigitChar
        if fds.length = 0 then none else some (fds, r2.dropWhile isDigitChar)
      | _ => some ([], rest1)
    match fracPart with
    | none => none
    | some (fds, rest2) =>
      let expPart : Option (ℤ × List Char) :=
        match rest2 with
        | 'e' :: r3 =>
          match r3 with
          | '+' :: r4 =>
            let eds := r4.takeWhile isDigitChar
            if eds.length = 0 then none
            else some ((digitsToNat eds : ℤ), r4.dropWhile isDigitChar)
          | '-' :: r4 =>
            let eds := r4.takeWhile isDigitChar
            if eds.length = 0 then none
            else some (-(digitsToNat eds : ℤ), r4.dropWhile isDigitChar)
          | _ =>
            let eds := r3.takeWhile isDigitChar
            if eds.length = 0 then none
            else some ((digitsToNat eds : ℤ), r3.dropWhile isDigitChar)
        | 'E' :: r3 =>
          match r3 with
          | '+' :: r4 =>
            let eds := r4.takeWhile isDigitChar
            if eds.length = 0 then none
            else some ((digitsToNat eds : ℤ), r4.dropWhile isDigitChar)
          | '-' :: r4 =>
            let eds := r4.takeWhile isDigitChar
            if eds.length = 0 then none
            else some (-(digitsToNat eds : ℤ), r4.dropWhile isDigitChar)
          | _ =>
            let eds := r3.takeWhile isDigitChar
            if eds.length = 0 then none
            else some ((digitsToNat eds : ℤ), r3.dropWhile isDigitChar)
        | _ => some (0, rest2)
      match expPart with
      | none => none
      | some (ev, rest3) =>
        let mantNat : ℕ := digitsToNat (ids ++ fds)
        let mantissa : ℤ := if neg then -(mantNat : ℤ) else (mantNat : ℤ)
        some (.num mantissa (ev - fds.length), rest3)

mutual

/-- Parse one JSON value after skipping whitespace; returns the value and
the unconsumed rest.  `fuel` bounds the recursion depth and is chosen large
enough by `jsonParse`. -/
def parseValue : ℕ → List Char → Option (Json × List Char)
  | 0, _ => none
  | fuel + 1, s =>
    match skipWs s with
    | 'n' :: 'u' :: 'l' :: 'l' :: rest => some (.null, rest)
    | 't' :: 'r' :: 'u' :: 'e' :: rest => some (.bool true, rest)
    | 'f' :: 'a' :: 'l' :: 's' :: 'e' :: rest => some (.bool false, rest)
    | '"' :: rest =>
      match parseStringBody rest with
      | some (content, rest2) => some (.str (String.mk content), rest2)
      | none => none
    | '[' :: rest =>
      match skipWs rest with
      | ']' :: rest2 => some (.arr [], rest2)
      | _ =>
        match parseElems fuel rest with
        | some (es, rest2) => some (.arr es, rest2)
        | none => none
    | '\x7b' :: rest =>
      match skipWs rest with
      | '\x7d' :: rest2 => some (.obj [], rest2)
      | _ =>
        match parseMembers fuel rest with
        | some (ms, rest2) => some (.obj ms, rest2)
        | none => none
    | other => parseNumberL other

/-- Parse the comma-separated elements of a nonempty array, up to and
including the closing bracket. -/
def parseElems : ℕ → List Char → Option (List Json × List Char)
  | 0, _ => none
  | fuel + 1, s =>
    match parseValue fuel s with
    | none => none
    | some (v, rest) =>
      match skipWs rest with
      | ',' :: rest2 =>
        match parseElems fuel rest2 with
        | some (vs, rest3) => some (v :: vs, rest3)
        | none => none
      | ']' :: rest2 => some ([v], rest2)
      | _ => none

/-- Parse the comma-separated members of a nonempty object, up to and
including the closing brace. -/
def parseMembers : ℕ → List Char → Option (List (String × Json) × List Char)
  | 0, _ => none
  | fuel + 1, s =>
    match skipWs s with
    | '"' :: rest =>
      match parseStringBody rest with
      | none => none
      | some (name, rest2) =>
        match skipWs rest2 with
        | ':' :: rest3 =>
          match parseValue fuel rest3 with
          | none => none
          | some (v, rest4) =>
            match skipWs rest4 with
            | ',' :: rest5 =>
              match parseMembers fuel rest5 with
              | some (ms, rest6) => some ((String.mk name, v) :: ms, rest6)
              | none => none
            | '\x7d' :: rest5 => some ([(String.mk name, v)], rest5)
            | _ => none
        | _ => none
    | _ => none

end

/-- Strict `JSON.parse` on a character list: one value and then only
whitespace.  The fuel `2·length + 4` dominates the recursion depth, which
grows by at most two per consumed character. -/
def jsonParseL (l : List Char) : Option Json :=
  match parseValue (2 * l.length + 4) l with
  | some (v, rest) => if skipWs rest = [] then some v else none
  | none => none

/-- Strict `JSON.parse` on a string. -/
def jsonParse (s : String) : Option Json := jsonParseL s.toList

/-! ## Response repair (`parsePerplexityResponse` in perplexityService.ts) -/

/-- Global replacement of the regex ```` ```json\n? ````: every occurrence of
the fence marker, with an optional trailing newline, is removed (scanning
left to right, longest alternative first, continuing after each match). -/
def stripFencesJson : List Char → List Char
  | '\x60' :: '\x60' :: '\x60' :: 'j' :: 's' :: 'o' :: 'n' :: '\n' :: rest =>
    stripFencesJson rest
  | '\x60' :: '\x60' :: '\x60' :: 'j' :: 's' :: 'o' :: 'n' :: rest => stripFencesJson rest
  | c :: rest => c :: stripFencesJson rest
  | [] => []

/-- Global replacement of the regex ```` ```\n? ````. -/
def stripFencesBare : List Char → List Char
  | '\x60' :: '\x60' :: '\x60' :: '\n' :: rest => stripFencesBare rest
  | '\x60' :: '\x60' :: '\x60' :: rest => stripFencesBare rest
  | c :: rest => c :: stripFencesBare rest
  | [] => []

/-- JavaScript `String.prototype.trim` on both ends (whitespace per
`Char.isWhitespace`). -/
def jsTrim (s : List Char) : List Char :=
  ((s.dropWhile Char.isWhitespace).reverse.dropWhile Char.isWhitespace).reverse

/-- Last index of a character in a list. -/
def lastIdxOf (c : Char) (s : List Char) : Option ℕ :=
  match s.reverse.findIdx? (fun x => x = c) with
  | some k => some (s.length - 1 - k)
  | none => none

/-- The greedy regex match `\[[\s\S]*\]` of `jsonText.match(...)`: from the
first opening bracket through the last closing bracket, when the latter
comes after the former. -/
def jsonArraySlice (s : List Char) : Option (List Char) :=
  match s.findIdx? (fun x => x = '[') with
  | some i =>
    match lastIdxOf ']' s with
    | some j => if i < j then some ((s.drop i).take (j - i + 1)) else none
    | none => none
  | none => none

/-- The bracket-depth walk: running count of `[` minus `]` over all
characters (string contents included, as in the source), recording the last
index `i > 0` at which the count returns to zero. -/
def bracketLastValid (s : List Char) : Option ℕ :=
  (s.foldl
    (fun (acc : ℤ × ℕ × Option ℕ) c =>
      let depth := if c = '[' then acc.1 + 1 else if c = ']' then acc.1 - 1 else acc.1
      let last := if depth = 0 ∧ 0 < acc.2.1 then some acc.2.1 else acc.2.2
      (depth, acc.2.1 + 1, last))
    (0, 0, none)).2.2

/-- JavaScript `lastIndexOf("\x7d,", k)`: the largest start index `≤ k` at
which the two-character search string occurs. -/
def lastIndexOfCloseComma (s : List Char) : ℕ → Option ℕ
  | 0 =>
    match s with
    | '\x7d' :: ',' :: _ => some 0
    | _ => none
  | k + 1 =>
    match (s.drop (k + 1)).take 2 with
    | ['\x7d', ','] => some (k + 1)
    | _ => lastIndexOfCloseComma s k

/-- The replacement `replace(/,\s*$/, "")`: drop one trailing comma together
with any whitespace after it. -/
def stripTrailingComma (s : List Char) : List Char :=
  match s.reverse.dropWhile Char.isWhitespace with
  | ',' :: rest => rest.reverse
  | _ => s

/-- Split a list after the first occurrence of `c`: the consumed part (with
`c` last) and the rest. -/
def splitAfterFirst (c : Char) : List Char → Option (List Char × List Char)
  | [] => none
  | x :: rest =>
    if x = c then some ([x], rest)
    else
      match splitAfterFirst c rest with
      | some (pre, post) => some (x :: pre, post)
      | none => none

/-- Greedy star of the group `\s*,\s*\x7b[\s\S]*?\x7d`: consume as many
complete groups as possible, returning the consumed text. -/
def lazyGroups : ℕ → List Char → List Char
  | 0, _ => []
  | fuel + 1, s =>
    let ws1 := s.takeWhile Char.isWhitespace
    match s.dropWhile Char.isWhitespace with
    | ',' :: rest2 =>
      let ws2 := rest2.takeWhile Char.isWhitespace
      match rest2.dropWhile Char.isWhitespace with
      | '\x7b' :: rest4 =>
        match splitAfterFirst '\x7d' rest4 with
        | some (mid, rest5) =>
          ws1 ++ [','] ++ ws2 ++ ['\x7b'] ++ mid ++ lazyGroups fuel rest5
        | none => []
      | _ => []
    | _ => []

/-- The last-resort regex `\[[\s\S]*?\x7d(?:\s*,\s*\x7b[\s\S]*?\x7d)*`: a
match starts at the first `[` (the earliest viable start), runs lazily to
the first `\x7d` after it, and then extends by as many complete
`,\x7b...\x7d` groups as possible. -/
def lastResortMatch (s : List Char) : Option (List Char) :=
  match s.findIdx? (fun c => c = '[') with
  | some i =>
    match s.drop i with
    | '[' :: afterBracket =>
      match splitAfterFirst '\x7d' afterBracket with
      | some (core, rest) => some ('[' :: core ++ lazyGroups rest.length rest)
      | none => none
    | _ => none
  | none => none

/-- The repair stage of `parsePerplexityResponse`, producing the `products`
JSON array: strip code fences and trim, slice at the outermost brackets,
try a direct parse, and on failure try the bracket-repair candidate; a
successfully parsed non-array is the explicit `not an array` throw, and a
failed repair parse returns the empty array. -/
def repairAndParse (response : String) : Except String (List Json) :=
  let jsonText0 := jsTrim response.toList
  let jsonText1 := jsTrim (stripFencesBare (stripFencesJson jsonText0))
  let jsonText :=
    match jsonArraySlice jsonText1 with
    | some m => m
    | none => jsonText1
  match jsonParseL jsonText with
  | some (.arr es) => .ok es
  | some _ => .error "Perplexity response is not an array"
  | none =>
    let fixedJson :=
      match bracketLastValid jsonText with
      | some lastValidIndex =>
        match lastIndexOfCloseComma jsonText lastValidIndex with
        | some k =>
          if 0 < k then jsonText.take (k + 1) ++ [']']
          else stripTrailingComma jsonText ++ [']']
        | none => stripTrailingComma jsonText ++ [']']
      | none =>
        match lastResortMatch jsonText with
        | some m => m ++ [']']
        | none => jsonText
    match jsonParseL fixedJson with
    | some (.arr es) => .ok es
    | some _ => .error "Perplexity response is not an array"
    | none => .ok []

/-! ## Mapping repaired items to products -/

/-- Property access `item[name]` on a parsed JSON value: `none` for absent
fields and non-objects; with duplicate keys the last occurrence wins, as in
`JSON.parse`. -/
def lookupField (item : Json) (name : String) : Option Json :=
  match item with
  | .obj fs => fs.foldl (fun acc kv => if kv.1 == name then some kv.2 else acc) none
  | _ => none

/-- JavaScript truthiness of a JSON value (NaN does not arise from parsed
JSON). -/
def jsTruthy : Json → Bool
  | .null => false
  | .bool b => b
  | .num m _ => ¬ m = 0
  | .str s => ¬ s = ""
  | .arr _ => true
  | .obj _ => true

/-- Truthiness of a possibly-absent field (`undefined` is falsy). -/
def fieldTruthy (o : Option Json) : Bool :=
  match o with
  | some v => jsTruthy v
  | none => false

/-- Decimal rendering of a parsed number literal, dropping trailing
fraction zeros as JavaScript number printing does (IEEE artifacts are not
modelled). -/
def numToString (m : ℤ) (e : ℤ) : String :=
  let sign := if m < 0 then "-" else ""
  let a := m.natAbs
  if 0 ≤ e then sign ++ toString (a * 10 ^ e.toNat)
  else
    let k := (-e).toNat
    let ip := a / 10 ^ k
    let fr := a % 10 ^ k
    let frDigits := (Nat.toDigits 10 fr).map id
    let padded := List.replicate (k - frDigits.length) '0' ++ frDigits
    let trimmed := (padded.reverse.dropWhile (fun c => c = '0')).reverse
    if trimmed.isEmpty then sign ++ toString ip
    else sign ++ toString ip ++ "." ++ String.mk trimmed

mutual

/-- JavaScript `String(v)` on a JSON value. -/
def jsToString : Json → String
  | .null => "null"
  | .bool b => toString b
  | .num m e => numToString m e
  | .str s => s
  | .arr es => jsToStringList es
  | .obj _ => "[object Object]"

/-- Array-to-string: elements joined with commas. -/
def jsToStringList : List Json → String
  | [] => ""
  | [x] => jsToString x
  | x :: xs => jsToString x ++ "," ++ jsToStringList xs

end

/-- First match of the regex `(\d+\.?\d*)`: the first digit run, optionally
extended by a dot and further digits. -/
def firstNumberMatch : List Char → Option (List Char)
  | [] => none
  | c :: rest =>
    if isDigitChar c then
      let ds := c :: rest.takeWhile isDigitChar
      match rest.dropWhile isDigitChar with
      | '.' :: r3 => some (ds ++ '.' :: r3.takeWhile isDigitChar)
      | _ => some ds
    else firstNumberMatch rest

/-- Value of a `digits(.digits)?` text. -/
def decTextToQ (t : List Char) : ℚ :=
  let ip := t.takeWhile isDigitChar
  match t.dropWhile isDigitChar with
  | '.' :: fr => (digitsToNat ip : ℚ) + (digitsToNat fr : ℚ) / 10 ^ fr.length
  | _ => (digitsToNat ip : ℚ)

/-- `parseFloat` on a JSON value: a parsed number keeps its value, any other
value goes through its string rendering (a non-numeric prefix would be NaN
in JavaScript; the embedding returns 0 there, a case no claim exercises). -/
def jsParseFloat : Json → ℚ
  | .num m e => (m : ℚ) * 10 ^ e
  | v =>
    match firstNumberMatch (jsToString v).toList with
    | some t => decTextToQ t
    | none => 0

/-- Conversion of one repaired JSON item to a `Product`, with the fallbacks
of the source: target-derived price default, target image/category/rating
fallbacks, and placeholder title and recommendation reason. -/
def toPerplexityProduct (targetProduct : Product) (now : ℤ) (index : ℕ)
    (item : Json) : Product :=
  let priceField := lookupField item "price"
  let priceNumeric : ℚ :=
    if fieldTruthy (lookupField item "priceNumeric") then
      jsParseFloat ((lookupField item "priceNumeric").getD .null)
    else if fieldTruthy priceField then
      match firstNumberMatch (jsToString (priceField.getD .null)).toList with
      | some t => decTextToQ t
      | none => targetProduct.priceNumeric * 0.8
    else targetProduct.priceNumeric * 0.8
  let priceString : String :=
    if fieldTruthy priceField then jsToString (priceField.getD .null)
    else "$" ++ ratToFixed2 priceNumeric
  let title : String :=
    if fieldTruthy (lookupField item "title") then jsToString ((lookupField item "title").getD .null)
    else if fieldTruthy (lookupField item "name") then jsToString ((lookupField item "name").getD .null)
    else "Similar Product"
  { id := "perplexity-" ++ toString index ++ "-" ++ toString now
    title := title
    price := priceString
    priceNumeric := priceNumeric
    image :=
      if fieldTruthy (lookupField item "image") then jsToString ((lookupField item "image").getD .null)
      else targetProduct.image
    category :=
      if fieldTruthy (lookupField item "category") then jsToString ((lookupField item "category").getD .null)
      else targetProduct.category
    rating :=
      if fieldTruthy (lookupField item "rating") then
        some (jsParseFloat ((lookupField item "rating").getD .null))
      else some (jsOrRating targetProduct.rating 4.0)
    features :=
      match lookupField item "features" with
      | some (.arr xs) => xs.filterMap (fun j =>
          match j with
          | .str s => some s
          | _ => none)
      | _ => []
    url :=
      if fieldTruthy (lookupField item "url") then some (jsToString ((lookupField item "url").getD .null))
      else if fieldTruthy (lookupField item "link") then some (jsToString ((lookupField item "link").getD .null))
      else none
    whyRecommended :=
      if fieldTruthy (lookupField item "whyRecommended") then
        some (jsToString ((lookupField item "whyRecommended").getD .null))
      else if fieldTruthy (lookupField item "reason") then
        some (jsToString ((lookupField item "reason").getD .null))
      else some "Similar product matching your preferences" }

/-- The full `parsePerplexityResponse`: repair the reply, convert each item,
and keep only products with a truthy title different from the placeholder;
the outer catch converts the not-an-array throw into an empty result. -/
def parsePerplexityResponse (response : String) (targetProduct : Product)
    (now : ℤ) : List Product :=
  match repairAndParse response with
  | .ok products =>
    (products.mapIdx (fun index item => toPerplexityProduct targetProduct now index item)).filter
      (fun p => ¬ p.title = "" ∧ ¬ p.title = "Similar Product")
  | .error _ => []

/-- Whatever the repair stage accepts was genuinely parsed as a JSON array
from some text (the direct candidate or the bracket-repaired one). -/
theorem repairAndParse_ok_sound (s : String) (es : List Json)
    (h : repairAndParse s = .ok es) :
    es = [] ∨ ∃ u : String, jsonParse u = some (.arr es) := by
  unfold repairAndParse at h
  dsimp only at h
  split at h
  · rename_i es2 heq
    injection h with h2
    subst h2
    exact Or.inr ⟨String.mk _, heq⟩
  · exact Except.noConfusion h
  · split at h
    · rename_i es2 heq2
      injection h with h2
      subst h2
      exact Or.inr ⟨String.mk _, heq2⟩
    · exact Except.noConfusion h
    · injection h with h2
      exact Or.inl h2.symm

/-- The spec example reply: a JSON array cut off inside its second object. -/
def exampleTruncatedReply : String :=
  "[\x7b\"title\":\"A\",\"price\":\"$10\"\x7d,\x7b\"title\":\"B\",\"pri"

/-- C3 amended: the repair routine never throws — for every input the
function yields a list, empty unless the repair stage produced a value that
was genuinely parsed as a JSON array from a candidate text — and on the spec
example reply, cut off mid-object, the repaired JSON value is exactly
`[\x7b"title":"A","price":"$10"\x7d]`, which surfaces as the one product
titled A priced $10. -/
theorem parsePerplexityResponse_repair_behavior (s : String)
    (targetProduct : Product) (now : ℤ) :
    (parsePerplexityResponse s targetProduct now = [] ∨
      ∃ es, repairAndParse s = .ok es ∧
        (es = [] ∨ ∃ u : String, jsonParse u = some (.arr es))) ∧
    repairAndParse exampleTruncatedReply =
      .ok [.obj [("title", .str "A"), ("price", .str "$10")]] ∧
    (parsePerplexityResponse exampleTruncatedReply scenario1Product 0).map
      (fun p => (p.title, p.price)) = [("A", "$10")] := by
  refine ⟨?_, rfl, rfl⟩
  cases hre : repairAndParse s with
  | error m =>
    left
    unfold parsePerplexityResponse
    rw [hre]
  | ok es =>
    right
    exact ⟨es, rfl, repairAndParse_ok_sound s es hre⟩

/-- A JSON array reply whose first string value contains a code-fence
marker, cut off inside its second object. -/
def fencedTruncatedReply : String :=
  "[\x7b\"title\":\"b\x60\x60\x60c\",\"price\":\"$9\"\x7d,\x7b\"title\":\"d"

/-- First element of the full (untruncated) fenced reply. -/
def fencedFullElem1 : Json := .obj [("title", .str "b\x60\x60\x60c"), ("price", .str "$9")]

/-- Second element of the full (untruncated) fenced reply. -/
def fencedFullElem2 : Json := .obj [("title", .str "d")]

/-- The element the repair routine actually returns for the truncated fenced
reply: fence stripping spliced the first string value. -/
def splicedElem : Json := .obj [("title", .str "bc"), ("price", .str "$9")]

/-- C3 counterexample: the fenced reply is a valid JSON array text (its
untruncated form parses to two objects), yet on its mid-object truncation
the repair routine returns the non-empty array `[splicedElem]` whose sole
element — title spliced from `b\x60\x60\x60c` to `bc` by the code-fence
stripping — is not among the fully-formed leading elements of the original,
refuting the claimed dichotomy. -/
theorem parsePerplexity_repair_not_leading_elements :
    jsonParse (fencedTruncatedReply ++ "\"\x7d]") =
      some (.arr [fencedFullElem1, fencedFullElem2]) ∧
    repairAndParse fencedTruncatedReply = .ok [splicedElem] ∧
    splicedElem ≠ fencedFullElem1 ∧ splicedElem ≠ fencedFullElem2 ∧
    ([splicedElem] : List Json) ≠ [] := by
  refine ⟨rfl, rfl, ?_, ?_, ?_⟩
  · simp [splicedElem, fencedFullElem1]
  · simp [splicedElem, fencedFullElem2]
  · simp
